import Mathlib

/-!
Verification development for the session-persistence and lifecycle core of
feeluown/app.py: the session state store (load_state / dump_state), the
shutdown sequence (_shutdown_app) and the scoped action wrapper
(create_action), shallowly embedded over explicit state.

External collaborators that are not part of the embedded source tree
(the fuocore Signal, Playlist and resolver registry, and the
feeluown.player Player) are modelled from the spec; each such definition
carries a doc comment saying so.
-/

namespace Feeluown

/-- A domain song object obtained from a provider; only its identity matters
to the code embedded here. -/
structure Song where
  id : Nat
deriving DecidableEq, Repr

/-- Modelled from the spec: the reference resolver contract (fuocore.models
resolve / reverse, not under the embedded sources). resolve turns a
reference string into a song or fails with ResolverNotFound (none);
reverse turns a song into a reference string or fails with NotReversible
(none). -/
structure Resolver where
  resolve : String → Option Song
  reverse : Song → Option String

/-- Modelled from the spec: fuocore.playlist.PlaybackMode, an integer enum
whose ordinal is what the state file stores. -/
inductive PlaybackMode
  | one_loop
  | sequential
  | loop
  | random
deriving DecidableEq, Repr

/-- The integer ordinal of a playback mode (its .value in the source). -/
def PlaybackMode.value : PlaybackMode → Nat
  | .one_loop => 0
  | .sequential => 1
  | .loop => 2
  | .random => 3

/-- Conversion of an ordinal back to a mode, as the PlaybackMode(...) call in
load_state does; none models the ValueError raised on an unknown ordinal. -/
def PlaybackMode.ofValue : Nat → Option PlaybackMode
  | 0 => some .one_loop
  | 1 => some .sequential
  | 2 => some .loop
  | 3 => some .random
  | _ => none

/-- Modelled from the spec: the live playlist (fuocore.playlist, not under
the embedded sources), reduced to the parts app.py touches: the ordered
songs, the playback mode and the current-song pointer. -/
structure Playlist where
  songs : List Song
  playback_mode : PlaybackMode
  current_song : Option Song
deriving DecidableEq, Repr

/-- Modelled from the spec: playlist.init_from(songs) replaces the playlist
contents wholesale with the given song list. -/
def Playlist.init_from (pl : Playlist) (songs : List Song) : Playlist :=
  { pl with songs := songs }

/-- Modelled from the spec: the player (feeluown.player, not under the
embedded sources), reduced to the observables the embedded code reads or
writes: the playlist, volume, the engine state ordinal (player.state.value),
position, the paused flag, the play range start, the loaded media song, and
the one-shot before_media_change hook (none when disconnected; when
connected it carries the resolved song captured by the closure in
load_state). -/
structure Player where
  playlist : Playlist
  volume : Int
  state_value : Nat
  position : Option Int
  paused : Bool
  play_range_start : Option Int
  loaded_song : Option Song
  hook : Option Song
deriving DecidableEq, Repr

/-- player.current_song delegates to the playlist's current song. -/
def Player.current_song (p : Player) : Option Song :=
  p.playlist.current_song

/-- Modelled from the spec: player.pause(). -/
def Player.pause (p : Player) : Player :=
  { p with paused := true }

/-- Modelled from the spec: player.resume(). -/
def Player.resume (p : Player) : Player :=
  { p with paused := false }

/-- Modelled from the spec: player.set_play_range(start=...); called with no
argument it resets the range. -/
def Player.set_play_range (p : Player) (start : Option Int) : Player :=
  { p with play_range_start := start }

/-- Modelled from the spec: player.load_song(song) pre-loads the song as the
player's media and makes it the playlist's current song (section 8 scenario
and the section 9 note on the current-song pointer at hook-fire time). -/
def Player.load_song (p : Player) (s : Song) : Player :=
  { p with loaded_song := some s,
           playlist := { p.playlist with current_song := some s } }

/-- The typed content of a well-formed state file: the dict built by
dump_state at app.py lines 109-116. -/
structure StateRecord where
  playback_mode : Nat
  volume : Int
  state : Nat
  song : Option String
  position : Option Int
  playlist : List String
deriving DecidableEq, Repr

/-- A JSON value, as far as the state record needs. -/
inductive JsonVal
  | jnum (n : Int)
  | jstr (s : String)
  | jnull
  | jarr (elems : List JsonVal)

/-- JSON view of an optional reference string. -/
def optStrVal : Option String → JsonVal
  | none => JsonVal.jnull
  | some s => JsonVal.jstr s

/-- JSON view of an optional number. -/
def optIntVal : Option Int → JsonVal
  | none => JsonVal.jnull
  | some n => JsonVal.jnum n

/-- The key-value pairs of the dict literal dump_state writes, in source
order (app.py lines 109-116). -/
def StateRecord.toKV (st : StateRecord) : List (String × JsonVal) :=
  [("playback_mode", JsonVal.jnum (Int.ofNat st.playback_mode)),
   ("volume", JsonVal.jnum st.volume),
   ("state", JsonVal.jnum (Int.ofNat st.state)),
   ("song", optStrVal st.song),
   ("position", optIntVal st.position),
   ("playlist", JsonVal.jarr (st.playlist.map JsonVal.jstr))]

/-- The state file as load_state can observe it: absent models
FileNotFoundError on open, corrupt models content on which json.load raises
JSONDecodeError, valid a successfully decoded record. -/
inductive FileContent
  | absent
  | corrupt
  | valid (st : StateRecord)
deriving DecidableEq, Repr

/-- The playlist-restoring loop of load_state (app.py lines 69-76): resolve
each reference, dropping those on which resolve raises ResolverNotFound,
keeping the rest in order. -/
def resolveRefs (res : Resolver) : List String → List Song
  | [] => []
  | r :: rest =>
    match res.resolve r with
    | none => resolveRefs res rest
    | some s => s :: resolveRefs res rest

/-- Bit flag for daemon mode (app.py line 34). -/
def DaemonModeFlag : Nat := 0x0001

/-- Bit flag for GUI mode (app.py line 35). -/
def GuiModeFlag : Nat := 0x0010

/-- Bit flag for CLI mode (app.py line 36). -/
def CliModeFlag : Nat := 0x0100

/-- The application state visible to the embedded code: the mode bitset, the
player (holding the playlist), and two flags recording the observable side
effects of load_state (the GUI call ui.table_container.show_player_playlist
and the logger.exception call for an invalid state file). -/
structure App where
  mode : Nat
  player : Player
  showedPlayerPlaylist : Bool
  loggedInvalidState : Bool
deriving DecidableEq, Repr

/-- Embedding of App.load_state (app.py lines 55-99). The state file is an
explicit argument. The result is none only when
PlaybackMode(state['playback_mode']) raises an uncaught ValueError; every
failure the source handles (missing file, undecodable file, unresolvable
references) is handled here as the source does. -/
def load_state (res : Resolver) (file : FileContent) (a : App) : Option App :=
  match file with
  | .absent => some a
  | .corrupt => some { a with loggedInvalidState := true }
  | .valid st =>
    match PlaybackMode.ofValue st.playback_mode with
    | none => none
    | some pm =>
      let songs := resolveRefs res st.playlist
      let pl := ({ a.player.playlist with playback_mode := pm }).init_from songs
      let player1 := { a.player with volume := st.volume, playlist := pl }
      let showed :=
        if songs ≠ [] ∧ a.mode &&& GuiModeFlag ≠ 0 then true
        else a.showedPlayerPlaylist
      match st.song with
      | none => some { a with player := player1, showedPlayerPlaylist := showed }
      | some ref =>
        match res.resolve ref with
        | none => some { a with player := player1, showedPlayerPlaylist := showed }
        | some s =>
          let player2 := { player1 with hook := some s }
          let player3 := ((player2.pause).set_play_range st.position).load_song s
          some { a with player := player3, showedPlayerPlaylist := showed }

/-- Embedding of the before_media_change closure (app.py lines 83-87), as one
firing of the player's media_about_to_changed signal; old_media_is_none
says whether the old_media argument was None. With no hook connected the
firing does nothing that this file observes. On a firing that passes the
guard the closure disconnects itself, resets the play range and resumes. -/
def Player.fireMediaAboutToChanged (p : Player) (old_media_is_none : Bool) : Player :=
  match p.hook with
  | none => p
  | some s =>
    if old_media_is_none = false ∨ p.playlist.current_song ≠ some s then
      (({ p with hook := none }).set_play_range none).resume
    else p

/-- reverse applied to every playlist entry, as the list comprehension at
app.py line 115 does; none models a NotReversible exception escaping
dump_state. -/
def reverseRefs (res : Resolver) : List Song → Option (List String)
  | [] => some []
  | s :: rest =>
    match res.reverse s with
    | none => none
    | some r => (reverseRefs res rest).map (fun rs => r :: rs)

/-- Embedding of App.dump_state (app.py lines 101-116), up to the file write:
the record it builds, or none when reverse raises NotReversible. -/
def dump_state (res : Resolver) (p : Player) : Option StateRecord :=
  match (match p.current_song with
         | none => some none
         | some s => (res.reverse s).map some) with
  | none => none
  | some songRef =>
    match reverseRefs res p.playlist.songs with
    | none => none
    | some refs =>
      some { playback_mode := p.playlist.playback_mode.value,
             volume := p.volume,
             state := p.state_value,
             song := songRef,
             position := p.position,
             playlist := refs }

/-- dump_state including the file write (app.py lines 117-118): on success
the state file is replaced wholesale with the new record; when reverse
raises, the exception escapes before the file is opened, leaving the file
untouched. The Bool records whether an exception escaped. -/
def dump_and_write (res : Resolver) (p : Player) (f : FileContent) :
    FileContent × Bool :=
  match dump_state res p with
  | none => (f, true)
  | some st => (FileContent.valid st, false)

/-- dump_state on one player followed by load_state of the written record
into another app, the round trip of the persistence protocol. -/
def dump_then_load (res : Resolver) (p : Player) (a : App) : Option App :=
  match dump_state res p with
  | none => none
  | some st => load_state res (FileContent.valid st) a

/-- JSON text of an optional reference string. -/
def encodeOptStr : Option String → String
  | none => "null"
  | some s => "\"" ++ s ++ "\""

/-- JSON text of an optional number. -/
def encodeOptInt : Option Int → String
  | none => "null"
  | some n => toString n

/-- JSON text of an array of reference strings. -/
def encodeStrList (l : List String) : String :=
  "[" ++ String.intercalate ", " (l.map (fun s => "\"" ++ s ++ "\"")) ++ "]"

/-- The JSON text json.dump writes for a state record (string escaping is not
modelled; reference strings contain none of the characters that need it). -/
def encodeRecord (st : StateRecord) : String :=
  "\x7b" ++ ("\"playback_mode\": " ++ toString st.playback_mode
    ++ ", \"volume\": " ++ toString st.volume
    ++ ", \"state\": " ++ toString st.state
    ++ ", \"song\": " ++ encodeOptStr st.song
    ++ ", \"position\": " ++ encodeOptInt st.position
    ++ ", \"playlist\": " ++ encodeStrList st.playlist
    ++ "\x7d")

/-- A necessary condition for a text to parse as the JSON object json.load
expects from the state file: nonempty, starting with an opening brace and
ending with a closing one. The empty text left by a bare truncation fails
it. -/
def jsonObjectShaped (s : String) : Bool :=
  (s.data.head? == some '\x7b') && (s.data.getLast? == some '\x7d')

/-- Observable contents of the state file over the course of dump_state's
write (app.py lines 117-118): open(STATE_FILE, 'w') truncates the file to
empty at once, and json.dump then writes the encoded record. There is no
temporary file and no rename; the truncation happens in place on the one
state file. -/
def dumpWriteContents (old : String) (st : StateRecord) : List String :=
  [old, "", encodeRecord st]

/-- The file content left behind when the process fails right after the open:
truncation done, nothing written yet. -/
def interruptedAfterOpen (old : String) (st : StateRecord) : String :=
  (dumpWriteContents old st).getD 1 old

/-- An observable effect of the shutdown sequence. -/
inductive Effect
  | stateFileWrite (st : StateRecord)
  | caughtAndLogged (i : Nat)
  | playerStop
  | playerShutdown
  | teardownAioSupport
deriving DecidableEq, Repr

/-- Modelled from the spec: a subscriber of the about_to_shutdown signal, by
what its invocation does: the effects it performs, and whether it then
raises. -/
structure Subscriber where
  effects : List Effect
  raises : Bool
deriving DecidableEq, Repr

/-- Modelled from the spec: fuocore.dispatch.Signal (not under the embedded
sources) invokes subscribers in registration order; per the spec's
propagation policy for the shutdown signal, a failure raised by one
subscriber is caught and logged individually and emission continues with
the rest. The index argument numbers the subscribers for the log entries. -/
def emitFrom (i : Nat) : List Subscriber → List Effect
  | [] => []
  | sub :: rest =>
    sub.effects ++ (if sub.raises then [Effect.caughtAndLogged i] else [])
      ++ emitFrom (i + 1) rest

/-- Signal.emit on the about_to_shutdown subscriber list. -/
def Signal.emit (subs : List Subscriber) : List Effect :=
  emitFrom 0 subs

/-- The dump_state subscriber connected at app.py line 45: invoked, it writes
the state file, unless reverse raises, in which case nothing is written and
the exception propagates into the signal emission. -/
def dumpSubscriber (res : Resolver) (p : Player) : Subscriber :=
  match dump_state res p with
  | none => { effects := [], raises := true }
  | some st => { effects := [Effect.stateFileWrite st], raises := false }

/-- Embedding of _shutdown_app (app.py lines 320-324) as its observable
effect trace: emit about_to_shutdown, stop the player, shut the player
down, tear down the signal aio support. The function keeps no
already-shut-down flag. -/
def shutdown_app (subs : List Subscriber) : List Effect :=
  Signal.emit subs
    ++ [Effect.playerStop, Effect.playerShutdown, Effect.teardownAioSupport]

/-- Two successive calls of _shutdown_app: app.py keeps no guard and emit
does not disconnect subscribers, so the second call runs the same sequence
over again and its effects accumulate after the first call's. -/
def shutdownTwice (subs : List Subscriber) : List Effect :=
  shutdown_app subs ++ shutdown_app subs

/-- Outcome of the block wrapped by create_action: it completed, it called
the action's failed(msg) (which raises ActionError(msg), app.py lines
137-138), or it raised some other exception carrying message msg. -/
inductive BlockOutcome
  | ok
  | actionFailed (msg : String)
  | blockError (msg : String)
deriving DecidableEq, Repr

/-- Embedding of App.create_action (app.py lines 120-149): given the
operation description and the outcome of the wrapped block, the messages
shown in order and the exception message re-raised to the caller, if any. -/
def create_action (s : String) (o : BlockOutcome) : List String × Option String :=
  match o with
  | .ok => ([s ++ "...", s ++ "...done"], none)
  | .actionFailed m => ([s ++ "...", s ++ "...failed\t" ++ m], none)
  | .blockError m => ([s ++ "...", s ++ "...error\t" ++ m], some m)

/-- Concrete song used to instantiate the theorems below. -/
def songA : Song := { id := 1 }

/-- Second concrete song. -/
def songB : Song := { id := 2 }

/-- A resolver that knows songA and songB under provider-qualified
references. -/
def resA : Resolver :=
  { resolve := fun r =>
      if r = "fuo://a/1" then some songA
      else if r = "fuo://a/2" then some songB
      else none,
    reverse := fun s =>
      if s = songA then some "fuo://a/1"
      else if s = songB then some "fuo://a/2"
      else none }

/-- A resolver with no provider registered: every resolve and reverse
fails. -/
def resNone : Resolver :=
  { resolve := fun _ => none, reverse := fun _ => none }

/-- A live playlist holding songA then songB, currently at songA. -/
def plA : Playlist :=
  { songs := [songA, songB], playback_mode := PlaybackMode.sequential,
    current_song := some songA }

/-- A live player mid-session: playing plA at position 15 with volume 80. -/
def pA : Player :=
  { playlist := plA, volume := 80, state_value := 2, position := some 15,
    paused := false, play_range_start := none, loaded_song := some songA,
    hook := none }

/-- A player with nothing loaded and an empty playlist. -/
def pEmpty : Player :=
  { playlist := { songs := [], playback_mode := PlaybackMode.sequential,
                  current_song := none },
    volume := 50, state_value := 0, position := none, paused := false,
    play_range_start := none, loaded_song := none, hook := none }

/-- A freshly started app in daemon mode. -/
def app0 : App :=
  { mode := DaemonModeFlag, player := pEmpty,
    showedPlayerPlaylist := false, loggedInvalidState := false }

/-- The record dump_state builds for pA under resA. -/
def recA : StateRecord :=
  { playback_mode := 1, volume := 80, state := 2, song := some "fuo://a/1",
    position := some 15, playlist := ["fuo://a/1", "fuo://a/2"] }

/-- A record of a previously saved session, distinct from recA. -/
def recPrior : StateRecord :=
  { playback_mode := 2, volume := 60, state := 1, song := none,
    position := none, playlist := ["fuo://a/2"] }

/-- A record whose references no longer resolve (the provider is gone). -/
def recOrphan : StateRecord :=
  { playback_mode := 1, volume := 70, state := 2, song := some "fuo://gone/9",
    position := some 3, playlist := ["fuo://gone/9", "fuo://gone/10"] }

/-- A well-behaved shutdown subscriber performing no observable effect. -/
def subQuiet : Subscriber := { effects := [], raises := false }

/-- A record mixing one resolvable and one unresolvable reference. -/
def recMixed : StateRecord :=
  { playback_mode := 1, volume := 80, state := 2, song := none,
    position := none, playlist := ["fuo://a/1", "fuo://gone/9"] }

/-- Converting a playback mode's ordinal back recovers the mode, so the mode
stored by dump_state is read back intact by load_state. -/
theorem PlaybackMode.ofValue_value (m : PlaybackMode) :
    PlaybackMode.ofValue m.value = some m := by
  cases m <;> rfl

/-- The restoring loop of load_state computes the filterMap of resolve over
the references: exactly the resolvable ones, in their original relative
order. -/
theorem resolveRefs_eq_filterMap (res : Resolver) (l : List String) :
    resolveRefs res l = l.filterMap res.resolve := by
  induction l with
  | nil => rfl
  | cons r rest ih =>
    cases h : res.resolve r <;> simp [resolveRefs, h, ih]

/-- The number of songs the restoring loop keeps, plus the number of
references that fail to resolve, is the total number of references. -/
theorem length_resolveRefs (res : Resolver) (l : List String) :
    (resolveRefs res l).length
      + l.countP (fun r => (res.resolve r).isNone) = l.length := by
  induction l with
  | nil => rfl
  | cons r rest ih =>
    cases h : res.resolve r <;>
      simp [resolveRefs, h, List.countP_cons, ih] <;> omega

/-- When every song of a list survives the reverse/resolve round trip, the
whole list does: reverse succeeds on each entry and resolving the produced
references restores the original list. -/
theorem roundtripRefs (res : Resolver) (l : List Song)
    (h : ∀ s ∈ l, ∃ r, res.reverse s = some r ∧ res.resolve r = some s) :
    ∃ refs, reverseRefs res l = some refs ∧ resolveRefs res refs = l := by
  induction l with
  | nil => exact ⟨[], rfl, rfl⟩
  | cons s rest ih =>
    obtain ⟨r, hr, hres⟩ := h s (by simp)
    obtain ⟨refs, h1, h2⟩ := ih (fun x hx => h x (by simp [hx]))
    exact ⟨r :: refs, by simp [reverseRefs, hr, h1],
           by simp [resolveRefs, hres, h2]⟩

/-- Signal emission distributes over concatenation of the subscriber list,
shifting the log index by the length of the first part. -/
theorem emitFrom_append (i : Nat) (l1 l2 : List Subscriber) :
    emitFrom i (l1 ++ l2) = emitFrom i l1 ++ emitFrom (i + l1.length) l2 := by
  induction l1 generalizing i with
  | nil => simp [emitFrom]
  | cons sub rest ih =>
    have hidx : i + (rest.length + 1) = (i + 1) + rest.length := by omega
    simp [emitFrom, ih (i + 1), List.append_assoc, hidx]

/-- C1: for a session whose current-song reference and playlist references
all survive the reverse/resolve round trip, dump_state followed by
load_state reconstructs an equivalent session: the live playlist is
installed with the same ordered song list (hence the same ordered reference
list), the same current song is loaded into the player, and the playback
mode and volume are restored. -/
theorem C1_dump_load_roundtrip (res : Resolver) (p : Player) (a : App)
    (c : Song)
    (hcur : p.current_song = some c)
    (hc : ∃ rc, res.reverse c = some rc ∧ res.resolve rc = some c)
    (hsongs : ∀ s ∈ p.playlist.songs,
      ∃ r, res.reverse s = some r ∧ res.resolve r = some s) :
    (dump_then_load res p a).map (fun a1 => a1.player.playlist.songs)
        = some p.playlist.songs ∧
    (dump_then_load res p a).map (fun a1 => a1.player.loaded_song)
        = some (some c) ∧
    (dump_then_load res p a).map (fun a1 => a1.player.playlist.playback_mode)
        = some p.playlist.playback_mode ∧
    (dump_then_load res p a).map (fun a1 => a1.player.volume)
        = some p.volume := by
  obtain ⟨rc, hrc, hresc⟩ := hc
  obtain ⟨refs, hrev, hres⟩ := roundtripRefs res p.playlist.songs hsongs
  have hdump : dump_state res p = some
      { playback_mode := p.playlist.playback_mode.value, volume := p.volume,
        state := p.state_value, song := some rc, position := p.position,
        playlist := refs } := by
    simp [dump_state, hcur, hrc, hrev]
  refine ⟨?_, ?_, ?_, ?_⟩ <;>
    simp [dump_then_load, hdump, load_state, PlaybackMode.ofValue_value,
          hresc, hres, Playlist.init_from, Player.pause, Player.set_play_range,
          Player.load_song]

/-- Witness for C1 at the concrete session pA under resA. -/
theorem C1_witness :
    (dump_then_load resA pA app0).map (fun a1 => a1.player.playlist.songs)
        = some pA.playlist.songs ∧
    (dump_then_load resA pA app0).map (fun a1 => a1.player.loaded_song)
        = some (some songA) ∧
    (dump_then_load resA pA app0).map (fun a1 => a1.player.playlist.playback_mode)
        = some pA.playlist.playback_mode ∧
    (dump_then_load resA pA app0).map (fun a1 => a1.player.volume)
        = some pA.volume :=
  C1_dump_load_roundtrip resA pA app0 songA (by decide)
    ⟨"fuo://a/1", by decide, by decide⟩
    (by
      intro s hs
      have hmem : s = songA ∨ s = songB := by simpa [pA, plA] using hs
      rcases hmem with h | h
      · subst h; exact ⟨"fuo://a/1", by decide, by decide⟩
      · subst h; exact ⟨"fuo://a/2", by decide, by decide⟩)

/-- C2: applying a loaded record installs exactly the resolvable references
as songs into the live playlist, in their original relative order (the
filterMap of resolve over the persisted references), so N references with M
unresolvable yield N minus M songs; when every reference is unresolvable the
installed playlist is empty; and in all cases no exception escapes. -/
theorem C2_resolution_failure_tolerance (res : Resolver) (st : StateRecord)
    (a : App) (pm : PlaybackMode)
    (hpm : PlaybackMode.ofValue st.playback_mode = some pm) :
    (load_state res (FileContent.valid st) a).isSome = true ∧
    (load_state res (FileContent.valid st) a).map
        (fun a1 => a1.player.playlist.songs)
        = some (st.playlist.filterMap res.resolve) ∧
    (load_state res (FileContent.valid st) a).map
        (fun a1 => a1.player.playlist.songs.length)
        = some (st.playlist.length
            - st.playlist.countP (fun r => (res.resolve r).isNone)) ∧
    ((∀ r ∈ st.playlist, res.resolve r = none) →
      (load_state res (FileContent.valid st) a).map
          (fun a1 => a1.player.playlist.songs) = some []) := by
  have hsongs : (load_state res (FileContent.valid st) a).map
      (fun a1 => a1.player.playlist.songs)
      = some (resolveRefs res st.playlist) := by
    cases hs : st.song with
    | none =>
      simp [load_state, hpm, hs, Playlist.init_from]
    | some ref =>
      cases hr : res.resolve ref with
      | none => simp [load_state, hpm, hs, hr, Playlist.init_from]
      | some s =>
        simp [load_state, hpm, hs, hr, Playlist.init_from, Player.pause,
              Player.set_play_range, Player.load_song]
  obtain ⟨a1, ha1, hsa1⟩ := Option.map_eq_some'.mp hsongs
  refine ⟨by simp [ha1], ?_, ?_, ?_⟩
  · rw [hsongs, resolveRefs_eq_filterMap]
  · rw [ha1]
    simp only [Option.map_some']
    rw [hsa1]
    have := length_resolveRefs res st.playlist
    congr 1
    omega
  · intro hall
    rw [hsongs, resolveRefs_eq_filterMap]
    simp only [Option.some.injEq]
    exact List.filterMap_eq_nil_iff.mpr hall

/-- Witness for C2 at a record with one resolvable and one unresolvable
reference: exactly the resolvable song is installed. -/
theorem C2_witness :
    (load_state resA (FileContent.valid recMixed) app0).map
        (fun a1 => a1.player.playlist.songs)
      = some (recMixed.playlist.filterMap resA.resolve) :=
  (C2_resolution_failure_tolerance resA recMixed app0
    PlaybackMode.sequential (by decide)).2.1

/-- C4: load_state treats a missing state file as an absent session, not an
error: it returns without raising and the app, its player and its playlist
are unchanged; a malformed state file is logged as an error and then handled
the same way: no raise, the player untouched, startup proceeding fresh. -/
theorem C4_absent_and_malformed (res : Resolver) (a : App) :
    load_state res FileContent.absent a = some a ∧
    load_state res FileContent.corrupt a
      = some { a with loggedInvalidState := true } ∧
    (load_state res FileContent.corrupt a).map (fun a1 => a1.player)
      = some a.player ∧
    (load_state res FileContent.corrupt a).map
        (fun a1 => a1.player.playlist.songs)
      = some a.player.playlist.songs :=
  ⟨rfl, rfl, rfl, rfl⟩

/-- C5: applying a loaded record whose current-song reference resolves
pre-loads that song into the player paused and seeked to the saved
position, with the one-shot before_media_change hook armed; the hook leaves
everything unchanged on the load's own media change (old media None and the
playlist current song equal to the restored song) and on the next real
media transition disconnects itself and resumes playback; when the
current-song reference is null or unresolvable, the playlist is still
installed but no song is pre-loaded and the player's paused, loaded-song
and hook state are untouched. -/
theorem C5_preload_and_hook (res : Resolver) (st : StateRecord) (a : App)
    (pm : PlaybackMode)
    (hpm : PlaybackMode.ofValue st.playback_mode = some pm) :
    (∀ ref s, st.song = some ref → res.resolve ref = some s →
      (load_state res (FileContent.valid st) a).map (fun a1 =>
          (a1.player.paused, a1.player.play_range_start,
           a1.player.loaded_song, a1.player.hook, a1.player.playlist.songs))
        = some (true, st.position, some s, some s,
                resolveRefs res st.playlist) ∧
      (load_state res (FileContent.valid st) a).map (fun a1 =>
          a1.player.fireMediaAboutToChanged true)
        = (load_state res (FileContent.valid st) a).map (fun a1 => a1.player) ∧
      (load_state res (FileContent.valid st) a).map (fun a1 =>
          ((a1.player.fireMediaAboutToChanged false).paused,
           (a1.player.fireMediaAboutToChanged false).hook))
        = some (false, none)) ∧
    (st.song = none →
      (load_state res (FileContent.valid st) a).map (fun a1 =>
          (a1.player.playlist.songs, a1.player.loaded_song,
           a1.player.paused, a1.player.hook))
        = some (resolveRefs res st.playlist, a.player.loaded_song,
                a.player.paused, a.player.hook)) ∧
    (∀ ref, st.song = some ref → res.resolve ref = none →
      (load_state res (FileContent.valid st) a).map (fun a1 =>
          (a1.player.playlist.songs, a1.player.loaded_song,
           a1.player.paused, a1.player.hook))
        = some (resolveRefs res st.playlist, a.player.loaded_song,
                a.player.paused, a.player.hook)) := by
  refine ⟨?_, ?_, ?_⟩
  · intro ref s hs hr
    refine ⟨?_, ?_, ?_⟩ <;>
      simp [load_state, hpm, hs, hr, Playlist.init_from, Player.pause,
            Player.set_play_range, Player.load_song,
            Player.fireMediaAboutToChanged, Player.resume]
  · intro hs
    simp [load_state, hpm, hs, Playlist.init_from]
  · intro ref hs hr
    simp [load_state, hpm, hs, hr, Playlist.init_from]

/-- Witness for C5: loading the saved record recA under resA leaves the
player paused at the saved position with songA loaded and the hook armed on
it. -/
theorem C5_witness :
    (load_state resA (FileContent.valid recA) app0).map (fun a1 =>
        (a1.player.paused, a1.player.play_range_start,
         a1.player.loaded_song, a1.player.hook, a1.player.playlist.songs))
      = some (true, recA.position, some songA, some songA,
              resolveRefs resA recA.playlist) :=
  ((C5_preload_and_hook resA recA app0 PlaybackMode.sequential
      (by decide)).1 "fuo://a/1" songA (by decide) (by decide)).1

/-- C6: during shutdown, when one about_to_shutdown subscriber raises (such
as the dump_state subscriber when reverse fails on the current song), the
failure is caught and logged individually by the signal emission, every
other subscriber before and after it still runs its effects, and the
remaining shutdown steps (stopping and shutting down the player, tearing
down the aio support) still complete. -/
theorem C6_shutdown_failure_isolation (pre post : List Subscriber)
    (failSub : Subscriber) (hfail : failSub.raises = true) :
    shutdown_app (pre ++ failSub :: post)
      = emitFrom 0 pre ++ failSub.effects
          ++ [Effect.caughtAndLogged pre.length]
          ++ emitFrom (pre.length + 1) post
          ++ [Effect.playerStop, Effect.playerShutdown,
              Effect.teardownAioSupport] := by
  simp [shutdown_app, Signal.emit, emitFrom_append, emitFrom, hfail,
        List.append_assoc]

/-- Witness for C6: the dump subscriber raises under resNone (no provider
can reverse the loaded current song); the quiet subscriber registered after
it still runs and the player stop, player shutdown and aio teardown still
follow. -/
theorem C6_witness :
    shutdown_app ([subQuiet] ++ dumpSubscriber resNone pA :: [subQuiet])
      = emitFrom 0 [subQuiet] ++ (dumpSubscriber resNone pA).effects
          ++ [Effect.caughtAndLogged 1]
          ++ emitFrom 2 [subQuiet]
          ++ [Effect.playerStop, Effect.playerShutdown,
              Effect.teardownAioSupport] :=
  C6_shutdown_failure_isolation [subQuiet] [subQuiet]
    (dumpSubscriber resNone pA) (by decide)

/-- C3 counterexample: dump_state writes the state file in place (app.py
lines 117-118 open STATE_FILE with mode w, which truncates at once, and
json.dump then writes; there is no temporary file and no rename), so the
write interrupted right after the open leaves the file empty: content that
is not shaped like any JSON object (json.load raises on it), while both the
prior snapshot recPrior and the new snapshot recA encode to well-shaped
objects. A partial write therefore does leave a corrupt file observable to
the next load_state, refuting the all-or-nothing claim. -/
theorem C3_counterexample :
    interruptedAfterOpen (encodeRecord recPrior) recA = "" ∧
    jsonObjectShaped "" = false ∧
    jsonObjectShaped (encodeRecord recPrior) = true ∧
    jsonObjectShaped (encodeRecord recA) = true := by
  exact ⟨rfl, by decide, by decide, by decide⟩

/-- C3 amended: the state file write is in-place truncate-then-write, not
write-to-temp-then-rename: interrupting right after the open leaves the
empty string, which is the encoding of no record (the next load_state thus
sees a malformed file, not a snapshot), and load_state handles a malformed
file by logging the error and carrying on with the session absent, so the
corruption loses the saved session but never crashes startup. -/
theorem C3_inplace_truncate_write (old : String) (st : StateRecord)
    (res : Resolver) (a : App) :
    interruptedAfterOpen old st = "" ∧
    (∀ r : StateRecord, encodeRecord r ≠ "") ∧
    load_state res FileContent.corrupt a
      = some { a with loggedInvalidState := true } := by
  refine ⟨rfl, ?_, rfl⟩
  intro r h
  have hlen : (encodeRecord r).length = 0 := by rw [h]; rfl
  rw [encodeRecord, String.length_append] at hlen
  have hone : ("\x7b" : String).length = 1 := rfl
  rw [hone] at hlen
  omega

/-- Witness for the amended C3 at concrete prior and new snapshots. -/
theorem C3_witness :
    interruptedAfterOpen (encodeRecord recPrior) recA = "" ∧
    load_state resA FileContent.corrupt app0
      = some { app0 with loggedInvalidState := true } :=
  ⟨(C3_inplace_truncate_write (encodeRecord recPrior) recA resA app0).1,
   (C3_inplace_truncate_write (encodeRecord recPrior) recA resA app0).2.2⟩

/-- C7 counterexample: with the dump subscriber connected (app.py line 45),
running _shutdown_app a second time after it has already run is observably
different from having run it once: the trace of the two calls is longer
than that of one call, and the part contributed by the second call stops
the player again and writes the state file again. -/
theorem C7_counterexample :
    shutdownTwice [dumpSubscriber resA pA]
        ≠ shutdown_app [dumpSubscriber resA pA] ∧
    Effect.playerStop
        ∈ (shutdownTwice [dumpSubscriber resA pA]).drop
            (shutdown_app [dumpSubscriber resA pA]).length ∧
    Effect.stateFileWrite recA
        ∈ (shutdownTwice [dumpSubscriber resA pA]).drop
            (shutdown_app [dumpSubscriber resA pA]).length := by
  exact ⟨by decide, by decide, by decide⟩

/-- C7 amended: _shutdown_app keeps no idempotence guard, so a second call
repeats the entire observable sequence: the effects after the first call's
trace are exactly the first call's trace again, including the player stop,
the aio teardown and every state-file write the dump subscriber performed;
single execution is ensured only by the callers, which invoke _shutdown_app
exactly once in their finally blocks. -/
theorem C7_shutdown_not_idempotent (subs : List Subscriber) :
    (shutdownTwice subs).drop (shutdown_app subs).length
      = shutdown_app subs ∧
    Effect.playerStop ∈ shutdown_app subs ∧
    Effect.teardownAioSupport ∈ shutdown_app subs ∧
    (∀ st : StateRecord,
      Effect.stateFileWrite st ∈ shutdown_app subs →
      Effect.stateFileWrite st
        ∈ (shutdownTwice subs).drop (shutdown_app subs).length) := by
  have hdrop : (shutdownTwice subs).drop (shutdown_app subs).length
      = shutdown_app subs := by
    simp [shutdownTwice, List.drop_left]
  refine ⟨hdrop, ?_, ?_, ?_⟩
  · simp [shutdown_app]
  · simp [shutdown_app]
  · intro st hst
    rw [hdrop]
    exact hst

/-- Witness for the amended C7: the second call's trace repeats the first
call's, including the state-file write for recA. -/
theorem C7_witness :
    (shutdownTwice [dumpSubscriber resA pA]).drop
        (shutdown_app [dumpSubscriber resA pA]).length
      = shutdown_app [dumpSubscriber resA pA] ∧
    Effect.stateFileWrite recA
      ∈ (shutdownTwice [dumpSubscriber resA pA]).drop
          (shutdown_app [dumpSubscriber resA pA]).length :=
  ⟨(C7_shutdown_not_idempotent [dumpSubscriber resA pA]).1,
   (C7_shutdown_not_idempotent [dumpSubscriber resA pA]).2.2.2 recA
     (by decide)⟩

/-- C8 counterexample: the record dump_state persists for the concrete
session pA carries the key state (the player state enum ordinal, app.py
line 112) besides the five keys of the SessionState schema, so its key list
is not exactly the five claimed keys. -/
theorem C8_counterexample :
    (dump_state resA pA).map (fun st => st.toKV.map Prod.fst)
      = some ["playback_mode", "volume", "state", "song", "position",
              "playlist"] ∧
    "state" ∉ ["volume", "playback_mode", "song", "position", "playlist"] := by
  exact ⟨by decide, by decide⟩

/-- C8 amended: whenever dump_state succeeds, the persisted record has
exactly six keys, in source order: playback_mode (the playback mode enum
ordinal), volume (number), state (the player state enum ordinal — the one
key beyond the claimed schema), song (reference string or null), position
(number or null) and playlist (array of reference strings), and no others;
the numeric fields are copied from the live player and playlist. -/
theorem C8_record_keys (res : Resolver) (p : Player) (st : StateRecord)
    (h : dump_state res p = some st) :
    st.toKV.map Prod.fst
      = ["playback_mode", "volume", "state", "song", "position",
         "playlist"] ∧
    st.volume = p.volume ∧
    st.playback_mode = p.playlist.playback_mode.value ∧
    st.state = p.state_value ∧
    st.position = p.position := by
  simp only [dump_state] at h
  split at h
  · simp at h
  · split at h
    · simp at h
    · injection h with h
      subst h
      exact ⟨rfl, rfl, rfl, rfl, rfl⟩

/-- Witness for the amended C8 at the concrete record recA dumped from pA. -/
theorem C8_witness :
    recA.toKV.map Prod.fst
      = ["playback_mode", "volume", "state", "song", "position",
         "playlist"] ∧
    recA.volume = pA.volume ∧
    recA.playback_mode = pA.playlist.playback_mode.value ∧
    recA.state = pA.state_value ∧
    recA.position = pA.position :=
  C8_record_keys resA pA recA (by decide)

/-- C9: create_action realises the three-outcome contract: the start report
is emitted first on entry in every case; a block that calls the action's
failed(msg) ends with the failed report and no exception propagates past
the wrapper; any other exception raised in the block is reported as an
error and re-raised to the caller; a block that completes reports done and
nothing propagates. -/
theorem C9_action_contract (s : String) (o : BlockOutcome) :
    (create_action s o).1.head? = some (s ++ "...") ∧
    (∀ m, o = BlockOutcome.actionFailed m →
      create_action s o = ([s ++ "...", s ++ "...failed\t" ++ m], none)) ∧
    (∀ m, o = BlockOutcome.blockError m →
      create_action s o = ([s ++ "...", s ++ "...error\t" ++ m], some m)) ∧
    (o = BlockOutcome.ok →
      create_action s o = ([s ++ "...", s ++ "...done"], none)) := by
  refine ⟨?_, ?_, ?_, ?_⟩
  · cases o <;> rfl
  · intro m h; subst h; rfl
  · intro m h; subst h; rfl
  · intro h; subst h; rfl

/-- Witness for C9: a handled failure is reported and swallowed; any other
error is reported and re-raised. -/
theorem C9_witness :
    create_action "sync" (BlockOutcome.actionFailed "boom")
      = (["sync...", "sync...failed\tboom"], none) ∧
    create_action "sync" (BlockOutcome.blockError "oops")
      = (["sync...", "sync...error\toops"], some "oops") :=
  ⟨(C9_action_contract "sync" (BlockOutcome.actionFailed "boom")).2.1
      "boom" rfl,
   (C9_action_contract "sync" (BlockOutcome.blockError "oops")).2.2.1
      "oops" rfl⟩

/-- C10: dump_state is unconditional: for an empty session (no current song,
empty playlist) it still succeeds under any resolver — building a record
whose song is null and whose playlist is the empty array — and the write
replaces whatever the state file held before, erasing the prior saved
session. -/
theorem C10_empty_session_overwrite (res : Resolver) (p : Player)
    (old : FileContent)
    (hcur : p.current_song = none) (hpl : p.playlist.songs = []) :
    dump_state res p
      = some { playback_mode := p.playlist.playback_mode.value,
               volume := p.volume, state := p.state_value, song := none,
               position := p.position, playlist := [] } ∧
    dump_and_write res p old
      = (FileContent.valid
           { playback_mode := p.playlist.playback_mode.value,
             volume := p.volume, state := p.state_value, song := none,
             position := p.position, playlist := [] },
         false) := by
  have hd : dump_state res p
      = some { playback_mode := p.playlist.playback_mode.value,
               volume := p.volume, state := p.state_value, song := none,
               position := p.position, playlist := [] } := by
    simp [dump_state, hcur, hpl, reverseRefs]
  exact ⟨hd, by simp [dump_and_write, hd]⟩

/-- Witness for C10: an empty run under a providerless resolver still dumps,
and the write replaces the previously saved session recPrior. -/
theorem C10_witness :
    dump_state resNone pEmpty
      = some { playback_mode := pEmpty.playlist.playback_mode.value,
               volume := pEmpty.volume, state := pEmpty.state_value,
               song := none, position := pEmpty.position, playlist := [] } ∧
    dump_and_write resNone pEmpty (FileContent.valid recPrior)
      = (FileContent.valid
           { playback_mode := pEmpty.playlist.playback_mode.value,
             volume := pEmpty.volume, state := pEmpty.state_value,
             song := none, position := pEmpty.position, playlist := [] },
         false) :=
  C10_empty_session_overwrite resNone pEmpty (FileContent.valid recPrior)
    (by decide) (by decide)

end Feeluown
